import Mathlib

/-!
Shallow embedding of the presence subsystem of the Orbit-Messenger chat
backend (presence-service: biz layer and the Redis-backed repository).

Modelling conventions:
- UUIDs are modelled as `Nat`, client ids as `String`, instants as `Nat`.
- Every call to `time.Now()` in the Go code becomes an explicit `now : Nat`
  argument; `uuid.New()` becomes an explicit fresh-id argument.
- The Redis store is three key spaces: presence by user id, device session
  by client id, and the per-user set of active client ids. A stored blob
  that fails to decode is modelled as `some none` (the key exists but the
  value is corrupt); a missing key is `none`.
- Infrastructure failures of the store itself (network errors to Redis)
  are outside the model; the modelled error cases are a missing session
  key and a corrupt blob.
- Operations that may write before failing return the store they leave
  behind together with `Option RepoError` (`none` = success), mirroring
  that the Go code performs non-transactional writes.
-/

namespace Orbit

inductive PresenceStatus where
  | online
  | away
  | offline
  | dnd
deriving DecidableEq, Repr

/-- biz.UserPresence -/
structure UserPresence where
  userID : Nat
  status : PresenceStatus
  lastSeen : Nat
  deviceInfo : String
  customStatus : String
deriving DecidableEq, Repr

/-- biz.DeviceSession; `disconnectedAt = none` means still connected. -/
structure DeviceSession where
  id : Nat
  userID : Nat
  clientID : String
  deviceInfo : String
  ip : String
  connectedAt : Nat
  disconnectedAt : Option Nat
  lastHeartbeat : Nat
deriving DecidableEq, Repr

/-- biz.PresenceUpdate, the decoded body of a status-update event. -/
structure PresenceUpdate where
  userID : Nat
  status : PresenceStatus
  customStatus : String
  timestamp : Nat
deriving DecidableEq, Repr

/-- biz.HeartbeatMessage, the decoded body of a heartbeat event. -/
structure HeartbeatMessage where
  userID : Nat
  clientID : String
  timestamp : Nat
deriving DecidableEq, Repr

inductive RepoError where
  | sessionNotFound
  | decodeError
deriving DecidableEq, Repr

/-- The Redis-backed state of data.presenceRepo: the `presence:user:` keys,
the `session:device:` keys, and the `sessions:user:` sets (kept as lists of
client ids with set semantics). `some none` is a stored blob that fails to
decode. -/
structure Store where
  presence : Nat → Option (Option UserPresence)
  session : String → Option (Option DeviceSession)
  userSessions : Nat → List String

def defaultOfflinePresence (userID now : Nat) : UserPresence :=
  { userID := userID, status := .offline, lastSeen := now,
    deviceInfo := "", customStatus := "" }

/-- data.presenceRepo.SetUserPresence: unconditional upsert of the presence
record under the user key. -/
def Store.setUserPresence (s : Store) (p : UserPresence) : Store :=
  { s with presence := fun u => if u = p.userID then some (some p) else s.presence u }

/-- data.presenceRepo.GetUserPresence: a missing key yields a default
offline record with lastSeen = now; a corrupt blob is an error; otherwise
the stored record. -/
def Store.getUserPresence (s : Store) (now : Nat) (userID : Nat) :
    Except RepoError UserPresence :=
  match s.presence userID with
  | none => .ok (defaultOfflinePresence userID now)
  | some none => .error .decodeError
  | some (some p) => .ok p

/-- data.presenceRepo.GetMultipleUserPresence: one entry per requested id,
in request order; a missing key or a corrupt blob is substituted with the
default offline record instead of failing the batch. (The Go code returns
a map keyed by user id; for duplicate-free requests the association list
below carries the same information.) -/
def Store.getMultipleUserPresence (s : Store) (now : Nat) (userIDs : List Nat) :
    List (Nat × UserPresence) :=
  userIDs.map fun userID =>
    match s.presence userID with
    | none => (userID, defaultOfflinePresence userID now)
    | some none => (userID, defaultOfflinePresence userID now)
    | some (some p) => (userID, p)

/-- Redis SADD on a set kept as a duplicate-free list. -/
def saddClient (l : List String) (c : String) : List String :=
  if c ∈ l then l else l ++ [c]

/-- data.presenceRepo.CreateDeviceSession: store the session under its
client id and add the client id to the per-user session set. -/
def Store.createDeviceSession (s : Store) (sess : DeviceSession) : Store :=
  { s with
    session := fun c => if c = sess.clientID then some (some sess) else s.session c,
    userSessions := fun u =>
      if u = sess.userID then saddClient (s.userSessions u) sess.clientID
      else s.userSessions u }

/-- data.presenceRepo.UpdateDeviceSession: rewrite the session under the
client id carried by the record. -/
def Store.updateDeviceSession (s : Store) (sess : DeviceSession) : Store :=
  { s with
    session := fun c => if c = sess.clientID then some (some sess) else s.session c }

/-- data.presenceRepo.GetDeviceSession: a missing key is ErrSessionNotFound;
a corrupt blob is a decode error. -/
def Store.getDeviceSession (s : Store) (clientID : String) :
    Except RepoError DeviceSession :=
  match s.session clientID with
  | none => .error .sessionNotFound
  | some none => .error .decodeError
  | some (some sess) => .ok sess

/-- data.presenceRepo.GetUserDeviceSessions: fetch each client id in the
per-user set, ignoring individual fetch errors. -/
def Store.getUserDeviceSessions (s : Store) (userID : Nat) : List DeviceSession :=
  (s.userSessions userID).filterMap fun clientID =>
    match s.getDeviceSession clientID with
    | .ok sess => some sess
    | .error _ => none

/-- data.presenceRepo.DisconnectDeviceSession: fetch the session, set its
disconnect timestamp to now, rewrite it under the same key (the record is
retained, with a shortened expiry, rather than deleted), and remove the
client id from the per-user session set. -/
def Store.disconnectDeviceSession (s : Store) (now : Nat) (clientID : String) :
    Store × Option RepoError :=
  match s.getDeviceSession clientID with
  | .error e => (s, some e)
  | .ok sess =>
    let sess2 := { sess with disconnectedAt := some now }
    ({ s with
       session := fun c => if c = clientID then some (some sess2) else s.session c,
       userSessions := fun u =>
         if u = sess.userID then (s.userSessions u).filter (fun c => c != clientID)
         else s.userSessions u },
     none)

/-- biz.PresenceUsecase.HandleClientConnected: create a fresh session
(connected, heartbeat = now) and overwrite the user presence with a fresh
online record. -/
def HandleClientConnected (s : Store) (freshID now : Nat) (clientID : String)
    (userID : Nat) (deviceInfo ip : String) : Store × Option RepoError :=
  let sess : DeviceSession :=
    { id := freshID, userID := userID, clientID := clientID,
      deviceInfo := deviceInfo, ip := ip, connectedAt := now,
      disconnectedAt := none, lastHeartbeat := now }
  let s1 := s.createDeviceSession sess
  let p : UserPresence :=
    { userID := userID, status := .online, lastSeen := now,
      deviceInfo := "", customStatus := "" }
  (s1.setUserPresence p, none)

/-- biz.PresenceUsecase.HandleClientDisconnected: fetch the session (error
propagates untouched), disconnect it, then recompute: if some other session
of the same user is still live, leave presence alone; otherwise overwrite
presence with a fresh offline record. -/
def HandleClientDisconnected (s : Store) (now : Nat) (clientID : String) :
    Store × Option RepoError :=
  match s.getDeviceSession clientID with
  | .error e => (s, some e)
  | .ok sess =>
    match s.disconnectDeviceSession now clientID with
    | (s1, some e) => (s1, some e)
    | (s1, none) =>
      let activeSessions := s1.getUserDeviceSessions sess.userID
      let hasActiveSessions :=
        activeSessions.any fun t => t.disconnectedAt.isNone && t.clientID != clientID
      if hasActiveSessions then (s1, none)
      else (s1.setUserPresence
              { userID := sess.userID, status := .offline, lastSeen := now,
                deviceInfo := "", customStatus := "" }, none)

/-- biz.PresenceUsecase.HandlePresenceUpdate: the payload is the decoded
status-update event (`none` = malformed JSON). On success the presence
record is overwritten with the status, custom status and timestamp carried
by the event; no current-time argument is involved. -/
def HandlePresenceUpdate (s : Store) (payload : Option PresenceUpdate) :
    Store × Option RepoError :=
  match payload with
  | none => (s, some .decodeError)
  | some update =>
    (s.setUserPresence
       { userID := update.userID, status := update.status,
         lastSeen := update.timestamp, deviceInfo := "",
         customStatus := update.customStatus }, none)

/-- biz.PresenceUsecase.HandleHeartbeat: the payload is the decoded
heartbeat event (`none` = malformed JSON). On success the stored session is
copied, only its last-heartbeat field is replaced by the event timestamp,
and it is written back. -/
def HandleHeartbeat (s : Store) (payload : Option HeartbeatMessage) :
    Store × Option RepoError :=
  match payload with
  | none => (s, some .decodeError)
  | some hb =>
    match s.getDeviceSession hb.clientID with
    | .error e => (s, some e)
    | .ok sess => (s.updateDeviceSession { sess with lastHeartbeat := hb.timestamp }, none)

/-- biz.PresenceUsecase.GetUserPresence: passthrough to the repo. -/
def GetUserPresence (s : Store) (now userID : Nat) : Except RepoError UserPresence :=
  s.getUserPresence now userID

/-- biz.PresenceUsecase.GetMultipleUserPresence: passthrough to the repo. -/
def GetMultipleUserPresence (s : Store) (now : Nat) (userIDs : List Nat) :
    List (Nat × UserPresence) :=
  s.getMultipleUserPresence now userIDs

/-- biz.PresenceUsecase.SetUserStatus: overwrite the presence record with
the requested status and custom status, lastSeen = now. -/
def SetUserStatus (s : Store) (now userID : Nat) (status : PresenceStatus)
    (customStatus : String) : Store :=
  s.setUserPresence
    { userID := userID, status := status, lastSeen := now,
      deviceInfo := "", customStatus := customStatus }

/-- Every stored session record sits under the key equal to its own client
id. Every store reachable by the repo operations satisfies this. -/
def Store.SessionKeysConsistent (s : Store) : Prop :=
  ∀ c sess, s.session c = some (some sess) → sess.clientID = c

/-- The store with no keys at all. -/
def emptyStore : Store :=
  { presence := fun _ => none, session := fun _ => none, userSessions := fun _ => [] }

/-- The per-entry logic of the bulk presence fetch: the stored record when
present and well-formed, the default offline record otherwise. -/
def storedOrDefaultPresence (s : Store) (now uid : Nat) : UserPresence :=
  match s.presence uid with
  | none => defaultOfflinePresence uid now
  | some none => defaultOfflinePresence uid now
  | some (some p) => p

/-- User 1 connected once as client c1 and that client already disconnected
once: the disconnected session record is still retained in the store. -/
def onceDisconnectedStore : Store :=
  (HandleClientDisconnected
    (HandleClientConnected emptyStore 10 100 "c1" 1 "" "").1 200 "c1").1

/-- User 1 connected as client c1, then explicitly set status away with a
custom text. -/
def awayStore : Store :=
  SetUserStatus (HandleClientConnected emptyStore 10 100 "c1" 1 "" "").1 150 1 .away "brb"

/-- The session record awayStore holds for client c1. -/
def awaySess : DeviceSession :=
  { id := 10, userID := 1, clientID := "c1", deviceInfo := "", ip := "",
    connectedAt := 100, disconnectedAt := none, lastHeartbeat := 100 }

/-- User 1 connected as client c1 with device metadata. -/
def hbStore : Store :=
  (HandleClientConnected emptyStore 10 100 "c1" 1 "d" "ip").1

/-- The session record hbStore holds for client c1. -/
def hbSess : DeviceSession :=
  { id := 10, userID := 1, clientID := "c1", deviceInfo := "d", ip := "ip",
    connectedAt := 100, disconnectedAt := none, lastHeartbeat := 100 }

/-- A store where user 2 has a stored online record, the record of user 3
is corrupt, and every other user has no record. -/
def bulkStore : Store :=
  { presence := fun u =>
      if u = 2 then some (some { userID := 2, status := .online, lastSeen := 50,
                                 deviceInfo := "", customStatus := "" })
      else if u = 3 then some none
      else none,
    session := fun _ => none,
    userSessions := fun _ => [] }

/-! ## Supporting lemmas -/

theorem mem_saddClient (l : List String) (c : String) : c ∈ saddClient l c := by
  unfold saddClient
  split
  · assumption
  · simp

/-- The store as left by the session-disconnect write: the session record
of the client id re-stored with the disconnect timestamp set, and the
client id removed from the per-user set of its owner. -/
def afterDisconnectStore (s : Store) (now : Nat) (clientID : String)
    (sess : DeviceSession) : Store :=
  { s with
    session := fun c =>
      if c = clientID then some (some { sess with disconnectedAt := some now })
      else s.session c,
    userSessions := fun u =>
      if u = sess.userID then (s.userSessions u).filter (fun c => c != clientID)
      else s.userSessions u }

/-- Unfolding of HandleClientDisconnected when the session record for the
client id is present and well-formed. -/
theorem handleClientDisconnected_eq (s : Store) (now : Nat) (clientID : String)
    (sess : DeviceSession) (h : s.session clientID = some (some sess)) :
    HandleClientDisconnected s now clientID =
      if ((afterDisconnectStore s now clientID sess).getUserDeviceSessions sess.userID).any
           (fun t => t.disconnectedAt.isNone && t.clientID != clientID)
      then (afterDisconnectStore s now clientID sess, none)
      else ((afterDisconnectStore s now clientID sess).setUserPresence
              { userID := sess.userID, status := .offline, lastSeen := now,
                deviceInfo := "", customStatus := "" }, none) := by
  unfold HandleClientDisconnected Store.disconnectDeviceSession Store.getDeviceSession
    afterDisconnectStore
  rw [h]

/-- If every client id other than the disconnecting one in the owner's
session set maps to a record that is not live, the post-disconnect
recomputation finds no active session. -/
theorem no_live_after_disconnect (s : Store) (now : Nat) (clientID : String)
    (sess : DeviceSession)
    (hlast : ∀ c ∈ s.userSessions sess.userID, c ≠ clientID →
       ∀ t, s.session c = some (some t) → t.disconnectedAt ≠ none) :
    ((afterDisconnectStore s now clientID sess).getUserDeviceSessions sess.userID).any
      (fun t => t.disconnectedAt.isNone && t.clientID != clientID) = false := by
  rw [List.any_eq_false]
  intro x hx
  unfold Store.getUserDeviceSessions afterDisconnectStore Store.getDeviceSession at hx
  simp only [List.mem_filterMap] at hx
  obtain ⟨c, hc, hfc⟩ := hx
  rw [if_pos trivial, List.mem_filter] at hc
  obtain ⟨hcmem, hcne⟩ := hc
  have hne : c ≠ clientID := by simpa using hcne
  rw [if_neg hne] at hfc
  cases hsc : s.session c with
  | none => rw [hsc] at hfc; cases hfc
  | some o =>
    cases o with
    | none => rw [hsc] at hfc; cases hfc
    | some y =>
      rw [hsc] at hfc
      have hyx : y = x := by simpa using hfc
      have hdis : x.disconnectedAt ≠ none := hlast c hcmem hne x (hyx ▸ hsc)
      simp only [Bool.and_eq_true, Option.isNone_iff_eq_none]
      intro hcon
      exact hdis hcon.1

/-- A client id in the per-user set whose session record is present and
well-formed contributes that record to GetUserDeviceSessions. -/
theorem mem_getUserDeviceSessions (s : Store) (userID : Nat) (c : String)
    (sess : DeviceSession) (hmem : c ∈ s.userSessions userID)
    (hsess : s.session c = some (some sess)) :
    sess ∈ s.getUserDeviceSessions userID := by
  unfold Store.getUserDeviceSessions Store.getDeviceSession
  refine List.mem_filterMap.mpr ⟨c, hmem, ?_⟩
  rw [hsess]

/-! ## Claims -/

/-- Claim C2: for every client id with no stored session record,
HandleClientDisconnected returns the SessionNotFound error and leaves the
whole store (session, presence and per-user set state) unchanged. -/
theorem disconnect_unknown_client_noop (s : Store) (now : Nat) (clientID : String)
    (h : s.session clientID = none) :
    HandleClientDisconnected s now clientID = (s, some RepoError.sessionNotFound) := by
  unfold HandleClientDisconnected Store.getDeviceSession
  rw [h]

theorem disconnect_unknown_client_noop_witness :
    emptyStore.session "c9" = none ∧
    HandleClientDisconnected emptyStore 7 "c9" = (emptyStore, some RepoError.sessionNotFound) :=
  ⟨rfl, disconnect_unknown_client_noop emptyStore 7 "c9" rfl⟩

/-- Claim C5: for every user id with no stored presence record,
GetUserPresence succeeds with a default record whose status is offline and
whose lastSeen is the current time; it never fails with a not-found
error (the missing-key case is the ok branch). -/
theorem getUserPresence_missing_defaults_offline (s : Store) (now userID : Nat)
    (h : s.presence userID = none) :
    GetUserPresence s now userID =
      .ok { userID := userID, status := .offline, lastSeen := now,
            deviceInfo := "", customStatus := "" } := by
  unfold GetUserPresence Store.getUserPresence
  rw [h]
  rfl

theorem getUserPresence_missing_defaults_offline_witness :
    emptyStore.presence 3 = none ∧
    GetUserPresence emptyStore 42 3 =
      .ok { userID := 3, status := .offline, lastSeen := 42,
            deviceInfo := "", customStatus := "" } :=
  ⟨rfl, getUserPresence_missing_defaults_offline emptyStore 42 3 rfl⟩

/-- Claim C7: for every decoded StatusUpdate event, the handler succeeds
and overwrites the presence record of the user named by the event with the
status and customStatus carried by the event and lastSeen equal to the
timestamp field of the event itself; the handler takes no current-time
input at all, so lastSeen cannot depend on the processing time. Presence
of every other user is untouched. -/
theorem handlePresenceUpdate_uses_event_timestamp (s : Store) (update : PresenceUpdate) :
    (HandlePresenceUpdate s (some update)).2 = none ∧
    ∀ u, (HandlePresenceUpdate s (some update)).1.presence u =
      if u = update.userID then
        some (some { userID := update.userID, status := update.status,
                     lastSeen := update.timestamp, deviceInfo := "",
                     customStatus := update.customStatus })
      else s.presence u :=
  ⟨rfl, fun _ => rfl⟩

/-- Claim C9: every HandleClientConnected call overwrites the presence
record of the connecting user with a fresh record online, lastSeen = now,
empty customStatus and empty deviceInfo — whatever record (manual
away/dnd, custom text) was stored before, and regardless of any other live
session in the store. Presence of every other user is untouched. -/
theorem handleClientConnected_overwrites_presence (s : Store) (freshID now : Nat)
    (clientID : String) (userID : Nat) (deviceInfo ip : String) :
    (HandleClientConnected s freshID now clientID userID deviceInfo ip).2 = none ∧
    ∀ u, (HandleClientConnected s freshID now clientID userID deviceInfo ip).1.presence u =
      if u = userID then
        some (some { userID := userID, status := .online, lastSeen := now,
                     deviceInfo := "", customStatus := "" })
      else s.presence u :=
  ⟨rfl, fun _ => rfl⟩

/-- Claim C1 counterexample: in onceDisconnectedStore the event
ClientDisconnected(c1) has already been delivered once (at time 200), yet
delivering it again (at time 300) does not fail with SessionNotFound — it
succeeds — and it does write: the presence record of user 1 changes (its
lastSeen moves to 300), so the end state is not that of a single
delivery. -/
theorem disconnect_twice_counterexample :
    (HandleClientDisconnected onceDisconnectedStore 300 "c1").2 = none ∧
    (HandleClientDisconnected onceDisconnectedStore 300 "c1").1.presence 1 ≠
      onceDisconnectedStore.presence 1 ∧
    (HandleClientDisconnected onceDisconnectedStore 300 "c1").1.session "c1" ≠
      onceDisconnectedStore.session "c1" := by
  decide

/-- Claim C1 amended: while the disconnected session record is still
retained in the store, a second HandleClientDisconnected for the same
client id does not fail with SessionNotFound; it succeeds, re-marks the
session disconnected at the later time, and either leaves presence alone
or rewrites the owning user to a fresh offline record with the later
lastSeen — so the end state matches a single delivery except for the
disconnect and lastSeen timestamps. SessionNotFound arises only once the
retained record has expired from the store. -/
theorem disconnect_second_delivery_succeeds (s : Store) (now : Nat)
    (clientID : String) (sess : DeviceSession) (t : Nat)
    (h : s.session clientID = some (some sess))
    (_hwas : sess.disconnectedAt = some t) :
    (HandleClientDisconnected s now clientID).2 = none ∧
    (HandleClientDisconnected s now clientID).1.session clientID =
      some (some { sess with disconnectedAt := some now }) ∧
    ((HandleClientDisconnected s now clientID).1.presence = s.presence ∨
     (HandleClientDisconnected s now clientID).1.presence = fun u =>
       if u = sess.userID then
         some (some { userID := sess.userID, status := .offline, lastSeen := now,
                      deviceInfo := "", customStatus := "" })
       else s.presence u) := by
  rw [handleClientDisconnected_eq s now clientID sess h]
  split
  · exact ⟨rfl, by simp [afterDisconnectStore], Or.inl rfl⟩
  · exact ⟨rfl, by simp [afterDisconnectStore, Store.setUserPresence], Or.inr rfl⟩

theorem disconnect_second_delivery_succeeds_witness :
    onceDisconnectedStore.session "c1" =
      some (some { id := 10, userID := 1, clientID := "c1", deviceInfo := "",
                   ip := "", connectedAt := 100, disconnectedAt := some 200,
                   lastHeartbeat := 100 }) ∧
    ({ id := 10, userID := 1, clientID := "c1", deviceInfo := "", ip := "",
       connectedAt := 100, disconnectedAt := some 200,
       lastHeartbeat := 100 : DeviceSession }).disconnectedAt = some 200 ∧
    ((HandleClientDisconnected onceDisconnectedStore 300 "c1").2 = none ∧
     (HandleClientDisconnected onceDisconnectedStore 300 "c1").1.session "c1" =
       some (some { id := 10, userID := 1, clientID := "c1", deviceInfo := "",
                    ip := "", connectedAt := 100, disconnectedAt := some 300,
                    lastHeartbeat := 100 }) ∧
     ((HandleClientDisconnected onceDisconnectedStore 300 "c1").1.presence =
        onceDisconnectedStore.presence ∨
      (HandleClientDisconnected onceDisconnectedStore 300 "c1").1.presence = fun u =>
        if u = 1 then
          some (some { userID := 1, status := .offline, lastSeen := 300,
                       deviceInfo := "", customStatus := "" })
        else onceDisconnectedStore.presence u)) :=
  ⟨by decide, rfl,
   disconnect_second_delivery_succeeds onceDisconnectedStore 300 "c1"
     { id := 10, userID := 1, clientID := "c1", deviceInfo := "", ip := "",
       connectedAt := 100, disconnectedAt := some 200, lastHeartbeat := 100 }
     200 (by decide) rfl⟩

/-- Claim C8: for every decoded Heartbeat event whose client id has a
stored session record (stored, as every store built by the repo keeps it,
under the key equal to its own client id), the handler succeeds, the
stored session is replaced by a copy whose only changed field is
last-heartbeat (set to the event timestamp), every other session key is
untouched, and the presence and per-user set key spaces are untouched. -/
theorem handleHeartbeat_only_advances_heartbeat (s : Store) (hb : HeartbeatMessage)
    (sess : DeviceSession)
    (h : s.session hb.clientID = some (some sess))
    (hc : sess.clientID = hb.clientID) :
    (HandleHeartbeat s (some hb)).2 = none ∧
    (∀ c, (HandleHeartbeat s (some hb)).1.session c =
      if c = hb.clientID then some (some { sess with lastHeartbeat := hb.timestamp })
      else s.session c) ∧
    (HandleHeartbeat s (some hb)).1.presence = s.presence ∧
    (HandleHeartbeat s (some hb)).1.userSessions = s.userSessions := by
  simp only [HandleHeartbeat, Store.getDeviceSession, Store.updateDeviceSession, h]
  refine ⟨trivial, fun c => ?_, trivial, trivial⟩
  simp only [hc]

theorem handleHeartbeat_only_advances_heartbeat_witness :
    hbStore.session "c1" = some (some hbSess) ∧
    hbSess.clientID = "c1" ∧
    ((HandleHeartbeat hbStore (some { userID := 1, clientID := "c1", timestamp := 400 })).2
        = none ∧
     (∀ c, (HandleHeartbeat hbStore
              (some { userID := 1, clientID := "c1", timestamp := 400 })).1.session c =
        if c = "c1" then some (some { hbSess with lastHeartbeat := 400 })
        else hbStore.session c) ∧
     (HandleHeartbeat hbStore
        (some { userID := 1, clientID := "c1", timestamp := 400 })).1.presence =
       hbStore.presence ∧
     (HandleHeartbeat hbStore
        (some { userID := 1, clientID := "c1", timestamp := 400 })).1.userSessions =
       hbStore.userSessions) :=
  ⟨by decide, rfl,
   handleHeartbeat_only_advances_heartbeat hbStore
     { userID := 1, clientID := "c1", timestamp := 400 } hbSess (by decide) rfl⟩

/-- Claim C3: for a user whose presence record was explicitly set to away
or dnd, a HandleClientDisconnected event for the last live session of the
user (every other client id in the session set of the user maps to a
record with its disconnect timestamp set) succeeds and overwrites the
presence record with a fresh offline record — the manual status and its
custom text are overridden. -/
theorem disconnect_last_live_forces_offline (s : Store) (now : Nat)
    (clientID : String) (sess : DeviceSession) (p : UserPresence)
    (h : s.session clientID = some (some sess))
    (_hp : s.presence sess.userID = some (some p))
    (_hstat : p.status = .away ∨ p.status = .dnd)
    (hlast : ∀ c ∈ s.userSessions sess.userID, c ≠ clientID →
       ∀ t, s.session c = some (some t) → t.disconnectedAt ≠ none) :
    (HandleClientDisconnected s now clientID).2 = none ∧
    (HandleClientDisconnected s now clientID).1.presence sess.userID =
      some (some { userID := sess.userID, status := .offline, lastSeen := now,
                   deviceInfo := "", customStatus := "" }) := by
  rw [handleClientDisconnected_eq s now clientID sess h,
      no_live_after_disconnect s now clientID sess hlast]
  constructor
  · simp
  · simp [Store.setUserPresence]

theorem disconnect_last_live_forces_offline_witness :
    (HandleClientDisconnected awayStore 200 "c1").2 = none ∧
    (HandleClientDisconnected awayStore 200 "c1").1.presence 1 =
      some (some { userID := 1, status := .offline, lastSeen := 200,
                   deviceInfo := "", customStatus := "" }) :=
  disconnect_last_live_forces_offline awayStore 200 "c1" awaySess
    { userID := 1, status := .away, lastSeen := 150, deviceInfo := "",
      customStatus := "brb" }
    (by decide) (by decide) (Or.inl rfl)
    (by
      intro c hc hne t _ht
      exfalso
      apply hne
      have hl : awayStore.userSessions awaySess.userID = ["c1"] := by decide
      rw [hl] at hc
      simpa using hc)

/-- Claim C4: for every starting store, user u and distinct client ids c1
and c2, after HandleClientConnected(c1,u), HandleClientConnected(c2,u) and
HandleClientDisconnected(c1), a GetUserPresence query for u returns status
online (the record written by the second connect, lastSeen = its connect
time): the disconnect finds the second session still live and does not
write presence. -/
theorem disconnect_with_remaining_live_keeps_online (s0 : Store)
    (i1 i2 t1 t2 t3 t4 u : Nat) (c1 c2 d1 d2 ip1 ip2 : String)
    (hne : c1 ≠ c2) :
    GetUserPresence
      ((HandleClientDisconnected
         (HandleClientConnected (HandleClientConnected s0 i1 t1 c1 u d1 ip1).1
            i2 t2 c2 u d2 ip2).1 t3 c1).1) t4 u =
      .ok { userID := u, status := .online, lastSeen := t2,
            deviceInfo := "", customStatus := "" } := by
  have hne2 : c2 ≠ c1 := fun hh => hne hh.symm
  have h2 : ((HandleClientConnected (HandleClientConnected s0 i1 t1 c1 u d1 ip1).1
               i2 t2 c2 u d2 ip2).1).session c1 =
      some (some { id := i1, userID := u, clientID := c1, deviceInfo := d1,
                   ip := ip1, connectedAt := t1, disconnectedAt := none,
                   lastHeartbeat := t1 }) := by
    simp [HandleClientConnected, Store.createDeviceSession, Store.setUserPresence, hne]
  rw [handleClientDisconnected_eq _ t3 c1 _ h2]
  have hm2 : c2 ∈ (afterDisconnectStore
      (HandleClientConnected (HandleClientConnected s0 i1 t1 c1 u d1 ip1).1
         i2 t2 c2 u d2 ip2).1 t3 c1
      { id := i1, userID := u, clientID := c1, deviceInfo := d1,
        ip := ip1, connectedAt := t1, disconnectedAt := none,
        lastHeartbeat := t1 }).userSessions u := by
    simp only [afterDisconnectStore]
    rw [if_pos trivial]
    refine List.mem_filter.mpr ⟨?_, ?_⟩
    · have hus : ((HandleClientConnected (HandleClientConnected s0 i1 t1 c1 u d1 ip1).1
            i2 t2 c2 u d2 ip2).1).userSessions u =
          saddClient (saddClient (s0.userSessions u) c1) c2 := by
        simp [HandleClientConnected, Store.createDeviceSession, Store.setUserPresence]
      rw [hus]
      exact mem_saddClient _ c2
    · simpa [bne_iff_ne] using hne2
  have hsB : (afterDisconnectStore
      (HandleClientConnected (HandleClientConnected s0 i1 t1 c1 u d1 ip1).1
         i2 t2 c2 u d2 ip2).1 t3 c1
      { id := i1, userID := u, clientID := c1, deviceInfo := d1,
        ip := ip1, connectedAt := t1, disconnectedAt := none,
        lastHeartbeat := t1 }).session c2 =
      some (some { id := i2, userID := u, clientID := c2, deviceInfo := d2,
                   ip := ip2, connectedAt := t2, disconnectedAt := none,
                   lastHeartbeat := t2 }) := by
    simp only [afterDisconnectStore]
    rw [if_neg hne2]
    simp [HandleClientConnected, Store.createDeviceSession, Store.setUserPresence]
  have hmemB := mem_getUserDeviceSessions _ u c2 _ hm2 hsB
  split
  · simp [GetUserPresence, Store.getUserPresence, afterDisconnectStore,
          HandleClientConnected, Store.createDeviceSession, Store.setUserPresence]
  · next hcond =>
      exact absurd
        (List.any_eq_true.mpr ⟨_, hmemB, by simpa [bne_iff_ne] using hne2⟩) hcond

theorem disconnect_with_remaining_live_keeps_online_witness :
    GetUserPresence
      ((HandleClientDisconnected
         (HandleClientConnected (HandleClientConnected emptyStore 10 100 "a" 1 "" "").1
            11 150 "b" 1 "" "").1 200 "a").1) 250 1 =
      .ok { userID := 1, status := .online, lastSeen := 150,
            deviceInfo := "", customStatus := "" } :=
  disconnect_with_remaining_live_keeps_online emptyStore 10 11 100 150 200 250 1
    "a" "b" "" "" "" "" (by decide)

/-- Keys of the bulk-fetch entries are the requested ids themselves, so a
lookup in the result of the map finds the entry of each requested id
(first auxiliary step for the bulk-fetch claim). -/
theorem lookup_map_key (f : Nat → Nat × UserPresence) (hf : ∀ x, (f x).1 = x)
    (l : List Nat) (hnd : l.Nodup) (uid : Nat) (hm : uid ∈ l) :
    (l.map f).lookup uid = some (f uid).2 := by
  induction l with
  | nil => cases hm
  | cons a tl ih =>
    rw [List.nodup_cons] at hnd
    have hfa : f a = (a, (f a).2) := Prod.ext (hf a) rfl
    rw [List.map_cons, hfa, List.lookup_cons]
    rcases List.mem_cons.mp hm with h1 | h1
    · subst h1
      simp
    · have hne : uid ≠ a := fun hh => hnd.1 (hh ▸ h1)
      have hb : (uid == a) = false := beq_eq_false_iff_ne.mpr hne
      rw [hb]
      exact ih hnd.2 h1

/-- The bulk fetch is the per-entry stored-or-default function mapped over
the requested ids. -/
theorem getMultipleUserPresence_eq_map (s : Store) (now : Nat) (userIDs : List Nat) :
    GetMultipleUserPresence s now userIDs =
      userIDs.map (fun uid => (uid, storedOrDefaultPresence s now uid)) := by
  unfold GetMultipleUserPresence Store.getMultipleUserPresence
  congr 1
  funext uid
  unfold storedOrDefaultPresence
  rcases s.presence uid with _ | (_ | p) <;> rfl

/-- Claim C6: for every duplicate-free list of requested user ids, the bulk
fetch returns exactly one entry per requested id — the result has the same
length as the request and a lookup of each requested id finds its entry —
and an id whose stored record is missing or fails to decode is given the
default offline record; the function is total, so per-entry failures never
shorten the result or fail the batch. -/
theorem getMultipleUserPresence_one_entry_per_id (s : Store) (now : Nat)
    (userIDs : List Nat) (hnd : userIDs.Nodup) :
    (GetMultipleUserPresence s now userIDs).length = userIDs.length ∧
    (∀ uid ∈ userIDs,
      (GetMultipleUserPresence s now userIDs).lookup uid =
        some (storedOrDefaultPresence s now uid)) ∧
    ∀ uid ∈ userIDs, s.presence uid = none ∨ s.presence uid = some none →
      (GetMultipleUserPresence s now userIDs).lookup uid =
        some (defaultOfflinePresence uid now) := by
  rw [getMultipleUserPresence_eq_map]
  have hl : ∀ uid ∈ userIDs,
      (userIDs.map (fun uid => (uid, storedOrDefaultPresence s now uid))).lookup uid =
        some (storedOrDefaultPresence s now uid) :=
    fun uid hm => lookup_map_key _ (fun _ => rfl) userIDs hnd uid hm
  refine ⟨by simp, hl, fun uid hm hbad => ?_⟩
  rw [hl uid hm]
  unfold storedOrDefaultPresence
  rcases hbad with hb | hb <;> rw [hb]

theorem getMultipleUserPresence_one_entry_per_id_witness :
    List.Nodup [1, 2, 3] ∧
    ((GetMultipleUserPresence bulkStore 9 [1, 2, 3]).length = [1, 2, 3].length ∧
     (∀ uid ∈ [1, 2, 3],
       (GetMultipleUserPresence bulkStore 9 [1, 2, 3]).lookup uid =
         some (storedOrDefaultPresence bulkStore 9 uid)) ∧
     ∀ uid ∈ [1, 2, 3], bulkStore.presence uid = none ∨ bulkStore.presence uid = some none →
       (GetMultipleUserPresence bulkStore 9 [1, 2, 3]).lookup uid =
         some (defaultOfflinePresence uid 9)) :=
  ⟨by decide, getMultipleUserPresence_one_entry_per_id bulkStore 9 [1, 2, 3] (by decide)⟩

theorem eq_of_some_some (a b : DeviceSession) (h : some (some a) = some (some b)) :
    a = b := by
  injection h with h1
  injection h1

/-- A key whose stored record is left untouched keeps a set disconnect
timestamp. -/
theorem disconnected_preserved_of_unchanged (s : Store) (k : String)
    (t t2 : DeviceSession) (hk : s.session k = some (some t))
    (hdis : t.disconnectedAt ≠ none) (h2 : s.session k = some (some t2)) :
    t2.disconnectedAt ≠ none := by
  rw [hk] at h2
  have h3 := eq_of_some_some t t2 h2
  rw [← h3]
  exact hdis

theorem afterDisconnectStore_session (s : Store) (now : Nat) (clientID : String)
    (sess : DeviceSession) (k : String) :
    (afterDisconnectStore s now clientID sess).session k =
      if k = clientID then some (some { sess with disconnectedAt := some now })
      else s.session k := rfl

/-- Claim C10: on a store whose session records sit under their own client
ids, a session record with a set disconnect timestamp is never reset to
connected by HandleHeartbeat (which copies the stored record and changes
only last-heartbeat) or by HandleClientDisconnected (which only sets the
timestamp); and HandleClientConnected is the operation that installs a
fresh connected (disconnect-absent) record under the client id, replacing
whatever record was there. -/
theorem disconnected_sessions_stay_disconnected (s : Store)
    (hcons : s.SessionKeysConsistent) :
    (∀ payload k t, s.session k = some (some t) → t.disconnectedAt ≠ none →
       ∀ t2, (HandleHeartbeat s payload).1.session k = some (some t2) →
         t2.disconnectedAt ≠ none) ∧
    (∀ now clientID k t, s.session k = some (some t) → t.disconnectedAt ≠ none →
       ∀ t2, (HandleClientDisconnected s now clientID).1.session k = some (some t2) →
         t2.disconnectedAt ≠ none) ∧
    (∀ freshID now clientID userID deviceInfo ip,
       (HandleClientConnected s freshID now clientID userID deviceInfo ip).1.session
           clientID =
         some (some { id := freshID, userID := userID, clientID := clientID,
                      deviceInfo := deviceInfo, ip := ip, connectedAt := now,
                      disconnectedAt := none, lastHeartbeat := now })) := by
  refine ⟨?_, ?_, ?_⟩
  · intro payload k t hk hdis t2 h2
    cases payload with
    | none => exact disconnected_preserved_of_unchanged s k t t2 hk hdis h2
    | some hb =>
      cases hsd : s.session hb.clientID with
      | none =>
        simp only [HandleHeartbeat, Store.getDeviceSession, hsd] at h2
        exact disconnected_preserved_of_unchanged s k t t2 hk hdis h2
      | some o =>
        cases o with
        | none =>
          simp only [HandleHeartbeat, Store.getDeviceSession, hsd] at h2
          exact disconnected_preserved_of_unchanged s k t t2 hk hdis h2
        | some sess =>
          simp only [HandleHeartbeat, Store.getDeviceSession, hsd,
                     Store.updateDeviceSession] at h2
          by_cases hk2 : k = sess.clientID
          · rw [if_pos hk2] at h2
            have ht2 := (eq_of_some_some _ _ h2).symm
            have hsc : sess.clientID = hb.clientID := hcons hb.clientID sess hsd
            have hts : t = sess := by
              have hke : s.session k = some (some sess) := by rw [hk2, hsc]; exact hsd
              rw [hk] at hke
              exact eq_of_some_some t sess hke
            rw [ht2]
            show sess.disconnectedAt ≠ none
            exact hts ▸ hdis
          · rw [if_neg hk2] at h2
            exact disconnected_preserved_of_unchanged s k t t2 hk hdis h2
  · intro now clientID k t hk hdis t2 h2
    cases hsd : s.session clientID with
    | none =>
      simp only [HandleClientDisconnected, Store.getDeviceSession, hsd] at h2
      exact disconnected_preserved_of_unchanged s k t t2 hk hdis h2
    | some o =>
      cases o with
      | none =>
        simp only [HandleClientDisconnected, Store.getDeviceSession, hsd] at h2
        exact disconnected_preserved_of_unchanged s k t t2 hk hdis h2
      | some sess =>
        rw [handleClientDisconnected_eq s now clientID sess hsd] at h2
        have h3 : (afterDisconnectStore s now clientID sess).session k =
            some (some t2) := by
          split at h2
          · exact h2
          · exact h2
        rw [afterDisconnectStore_session] at h3
        by_cases hk2 : k = clientID
        · rw [if_pos hk2] at h3
          have ht2 := (eq_of_some_some _ _ h3).symm
          rw [ht2]
          simp
        · rw [if_neg hk2] at h3
          exact disconnected_preserved_of_unchanged s k t t2 hk hdis h3
  · intro freshID now clientID userID deviceInfo ip
    simp [HandleClientConnected, Store.createDeviceSession, Store.setUserPresence]

theorem disconnected_sessions_stay_disconnected_witness :
    (∀ payload k t, emptyStore.session k = some (some t) → t.disconnectedAt ≠ none →
       ∀ t2, (HandleHeartbeat emptyStore payload).1.session k = some (some t2) →
         t2.disconnectedAt ≠ none) ∧
    (∀ now clientID k t, emptyStore.session k = some (some t) →
       t.disconnectedAt ≠ none →
       ∀ t2, (HandleClientDisconnected emptyStore now clientID).1.session k =
           some (some t2) →
         t2.disconnectedAt ≠ none) ∧
    (∀ freshID now clientID userID deviceInfo ip,
       (HandleClientConnected emptyStore freshID now clientID userID
           deviceInfo ip).1.session clientID =
         some (some { id := freshID, userID := userID, clientID := clientID,
                      deviceInfo := deviceInfo, ip := ip, connectedAt := now,
                      disconnectedAt := none, lastHeartbeat := now })) :=
  disconnected_sessions_stay_disconnected emptyStore
    (by intro c sess h; simp [emptyStore] at h)

end Orbit
